import Mathlib

/-
Shallow embedding of the AudioDelay effect core (class AudioDelay, method
ProcessSample) for the Music Thing Modular Workshop System delay card.

Modelling conventions:
- int32_t and int64_t values are modelled as unbounded Int; the source never
  relies on 32-bit overflow in this arithmetic (intermediate products go
  through int64_t casts in the source), so mathematical integers are a
  faithful model on the value ranges the code maintains.
- uint32_t tap-tempo counters (sampleCounter, lastTapTime, tapInterval,
  tapTimeout) are modelled as Nat reduced modulo 2^32 by every operation,
  since the source deliberately exploits uint32_t wraparound there.
  The (int32_t) cast used for the wrap-safe deadline comparison is toI32.
- Arithmetic right shift a >> k of the source (a two's-complement
  sign-extending shift) is sar a k, floor division by 2^k.
- C++ / and % on int (truncating division and remainder) are Int.tdiv and
  Int.tmod.
- The bitmask a & 0x7F on a two's-complement integer equals a % 128 with a
  non-negative remainder, which is Int emod by 128.
- The class is zero-initialized (static storage), so the delay buffer starts
  at all zeros; initState mirrors the constructor initialization list.
-/

namespace WorkshopDelay

/-- 2^32, the modulus of the uint32_t tap-tempo counters. -/
def U32 : Nat := 4294967296

/-- Reinterpretation of a uint32_t value as int32_t (two's complement). -/
def toI32 (n : Nat) : Int :=
  if n % U32 < 2147483648 then ((n % U32 : Nat) : Int)
  else ((n % U32 : Nat) : Int) - 4294967296

/-- Arithmetic right shift by k bits: floor division by 2^k. -/
def sar (a : Int) (k : Nat) : Int := a / ((2 : Int) ^ k)

/-- Delay buffer capacity, source line 8: MAX_DELAY_SIZE = 96000. -/
def MAX_DELAY_SIZE : Int := 96000

/-- Source line 199: minimum delay in samples. -/
def MIN_DELAY : Int := 100

/-- Source line 200: maximum delay in samples. -/
def MAX_DELAY : Int := 95000

/-- Source line 18: the four delay modes. -/
inductive DelayMode where
  | CleanMode
  | SaturationMode
  | ShimmerMode
  | LoFiMode
deriving DecidableEq

/-- Numeric value of a mode, as in the source enum (CLEAN=0 .. LOFI=3). -/
def DelayMode.toIdx : DelayMode → Nat
  | .CleanMode => 0
  | .SaturationMode => 1
  | .ShimmerMode => 2
  | .LoFiMode => 3

/-- Mode with a given enum value. -/
def DelayMode.ofIdx : Nat → DelayMode
  | 0 => .CleanMode
  | 1 => .SaturationMode
  | 2 => .ShimmerMode
  | _ => .LoFiMode

/-- Source line 137: currentMode = (DelayMode)((currentMode + 1) % 4). -/
def nextMode (m : DelayMode) : DelayMode := DelayMode.ofIdx ((m.toIdx + 1) % 4)

/-- Three-position switch read by SwitchVal(). -/
inductive Switch where
  | Up
  | Middle
  | Down
deriving DecidableEq

/-- Values polled from the hardware on one ProcessSample cycle. -/
structure Input where
  audioIn1 : Int
  audioIn2 : Int
  switchVal : Switch
  pulse1 : Bool
  pulse2 : Bool
  knobX : Int
  knobY : Int
  knobMain : Int
  cv1 : Int
  cv2 : Int

/-- The member state of class AudioDelay, source lines 8-39. -/
structure State where
  delayBuffer : Int → Int
  writeIndex : Int
  smoothedDelay : Int
  lastRawControl : Int
  ledCounter : Int
  currentMode : DelayMode
  lastSwitchDown : Bool
  hpfState : Int
  shimmerHpfState : Int
  saturationAccum : Int
  lastTapTime : Nat
  tapInterval : Nat
  tapTimeout : Nat
  tapTempoActive : Bool
  lastPulse1 : Bool
  sampleCounter : Nat
  lastFreezeActive : Bool
  frozenWritePos : Int
  frozenDelayTimeL : Int
  frozenDelayTimeR : Int

/-- Values produced on one ProcessSample cycle (audio outputs and LED
commands; led0 is none on cycles where the source issues no LedOn(0,_)). -/
structure Output where
  audioOut1 : Int
  audioOut2 : Int
  led0 : Option Bool
  led1 : Bool
  led2 : Bool
  led3 : Bool
  led4 : Bool
  led5 : Bool

/-- Source lines 41-47: one-pole DC-blocking highpass; returns the new
hpfState and the filter output. -/
def highpass (hpfState input : Int) : Int × Int :=
  let s := hpfState + sar ((input - hpfState) * 200 + 32768) 16
  (s, input - s)

/-- Source lines 49-55: aggressive highpass for shimmer mode. -/
def shimmerHighpass (st input : Int) : Int × Int :=
  let s := st + sar ((input - st) * 1200 + 32768) 16
  (s, input - s)

/-- Source lines 57-61: hard clip to the signed audio range. -/
def clip (a : Int) : Int :=
  let a1 := if a < -2047 then -2047 else a
  if a1 > 2047 then 2047 else a1

/-- Source lines 63-112: progressive warm saturation; returns the new
saturationAccum and the saturated output. -/
def warmSaturate (saturationAccum input : Int) : Int × Int :=
  let absInput := if input < 0 then -input else input
  let acc0 := sar (252 * saturationAccum + 128) 8 + sar (absInput + 128) 8
  let acc := if acc0 > 400 then 400 else acc0
  let drive := 2700 + sar (acc + 8) 4
  let driven := sar (input * drive + 1024) 11
  let softKnee : Int := 600
  let output :=
    if 0 ≤ driven then
      if driven < softKnee then driven
      else
        let excess := driven - softKnee
        let o := softKnee + sar (excess + 4) 3 + sar (excess + 16) 5
        if o > 2047 then 2047 else o
    else
      let posInput := -driven
      if posInput < softKnee then driven
      else
        let excess := posInput - softKnee
        let o := -(softKnee + sar (excess + 4) 3 + sar (excess + 16) 5)
        if o < -2047 then -2047 else o
  (acc, sar (output * 1434 + 1024) 11)

/-- Source line 131: mix the two audio inputs. -/
def audioInOf (inp : Input) : Int := sar (inp.audioIn1 + inp.audioIn2 + 1) 1

/-- Source lines 133-139: momentary switch-down edge cycles the mode. -/
def modeOf (s : State) (inp : Input) : DelayMode :=
  if decide (inp.switchVal = Switch.Down) && !s.lastSwitchDown then nextMode s.currentMode
  else s.currentMode

/-- Source lines 142-157: tap-tempo edge handling. On a rising edge of
pulse 1 the uint32_t interval since the last tap is measured; intervals in
[2400, 144000] samples are accepted (set tapInterval, activate, arm the
5 second timeout), others are ignored, but lastTapTime is recorded either
way. Returns (lastTapTime, tapInterval, tapTimeout, tapTempoActive). -/
def tapUpdate (pulse1 lastPulse1 : Bool) (sampleCounter lastTapTime tapInterval tapTimeout : Nat)
    (tapTempoActive : Bool) : Nat × Nat × Nat × Bool :=
  if pulse1 && !lastPulse1 then
    let timeSinceLastTap := (sampleCounter + U32 - lastTapTime % U32) % U32
    if 2400 ≤ timeSinceLastTap ∧ timeSinceLastTap ≤ 144000 then
      (sampleCounter, timeSinceLastTap, (sampleCounter + 240000) % U32, true)
    else
      (sampleCounter, tapInterval, tapTimeout, tapTempoActive)
  else
    (lastTapTime, tapInterval, tapTimeout, tapTempoActive)

/-- The tap state quadruple after the edge handling of this cycle. -/
def tapAfterOf (s : State) (inp : Input) : Nat × Nat × Nat × Bool :=
  tapUpdate inp.pulse1 s.lastPulse1 s.sampleCounter s.lastTapTime s.tapInterval s.tapTimeout
    s.tapTempoActive

/-- Source lines 159-163: wrap-safe timeout. The uint32_t difference
sampleCounter - tapTimeout is reinterpreted as int32_t; a non-negative
value means the deadline has been reached or passed and tap tempo returns
to idle. -/
def tapTimeoutCheck (tapTempoActive : Bool) (sampleCounter tapTimeout : Nat) : Bool :=
  if tapTempoActive = true ∧ 0 ≤ toI32 ((sampleCounter + U32 - tapTimeout % U32) % U32) then false
  else tapTempoActive

/-- Whether tap tempo is active after this cycle's edge and timeout logic. -/
def tapActiveOf (s : State) (inp : Input) : Bool :=
  tapTimeoutCheck (tapAfterOf s inp).2.2.2 s.sampleCounter (tapAfterOf s inp).2.2.1

/-- Source lines 174-176 and 355-357: knob plus CV, clamped to [0, 4095]. -/
def combineClamp (a b : Int) : Int :=
  let c0 := a + b
  let c1 := if c0 > 4095 then 4095 else c0
  if c1 < 0 then 0 else c1

/-- Source lines 178-195: hysteresis on the combined delay control. Outside
LOFI mode a new value is taken only when it differs from the held value by
at least 8; smaller changes reuse the held value. LOFI bypasses hysteresis.
Returns (effective control, new held value). -/
def hysteresisStep (currentMode : DelayMode) (combinedControl lastRawControl : Int) : Int × Int :=
  if currentMode ≠ DelayMode.LoFiMode then
    let controlDelta0 := combinedControl - lastRawControl
    let controlDelta := if controlDelta0 < 0 then -controlDelta0 else controlDelta0
    if controlDelta ≥ 8 then (combinedControl, combinedControl)
    else (lastRawControl, lastRawControl)
  else
    (combinedControl, combinedControl)

/-- The hysteresis result of this cycle. -/
def hysOf (s : State) (inp : Input) : Int × Int :=
  hysteresisStep (modeOf s inp) (combineClamp inp.knobX inp.cv1) s.lastRawControl

/-- Source lines 202-214: target delay: the clamped tap interval when tap
tempo is active, otherwise the linear mapping of the combined control. -/
def targetDelayOf (tapTempoActive : Bool) (tapInterval : Nat) (combinedControl : Int) : Int :=
  if tapTempoActive then
    let t0 : Int := (tapInterval : Int)
    let t1 := if t0 < MIN_DELAY then MIN_DELAY else t0
    if t1 > MAX_DELAY then MAX_DELAY else t1
  else
    MIN_DELAY + Int.tdiv (combinedControl * (MAX_DELAY - MIN_DELAY)) 4095

/-- Source lines 216-219: exponential smoothing with pole 255/256 in the
7-fractional-bit domain (targetDelay << 7). -/
def smoothStep (smoothedDelay targetDelayFine : Int) : Int :=
  sar (smoothedDelay * 255 + targetDelayFine + 128) 8

/-- The smoothed delay after this cycle. -/
def smoothedDelayOf (s : State) (inp : Input) : Int :=
  smoothStep s.smoothedDelay (targetDelayOf (tapActiveOf s inp) (tapAfterOf s inp).2.1 (hysOf s inp).1 * 128)

/-- Source lines 239-243: shimmer pitch modulation. The Q16 constant
-21782 scales the smoothed delay; the offset of magnitude 32768 is added
toward the sign of the product before the arithmetic shift by 16. -/
def shimmerPitchMod (smoothedDelay : Int) : Int :=
  let temp := smoothedDelay * (-21782)
  sar (temp + (if 0 ≤ temp then 32768 else -32768)) 16

/-- Source lines 221-244: pitch modulation is applied in SHIMMER mode only. -/
def pitchModulationOf (s : State) (inp : Input) : Int :=
  if modeOf s inp = DelayMode.ShimmerMode then shimmerPitchMod (smoothedDelayOf s inp) else 0

/-- Source lines 249-252: clamp a fine (7-fractional-bit) delay to
[MIN_DELAY << 7, MAX_DELAY << 7]. -/
def clampFine (x : Int) : Int :=
  let a := if x < MIN_DELAY * 128 then MIN_DELAY * 128 else x
  if a > MAX_DELAY * 128 then MAX_DELAY * 128 else a

/-- Source lines 246-252: the modulated (left) fine delay of this cycle. -/
def modulatedDelayOf (s : State) (inp : Input) : Int :=
  clampFine (smoothedDelayOf s inp + pitchModulationOf s inp)

/-- Source lines 254-270: per-mode stereo offset for the right channel,
clamped to the valid fine range. -/
def stereoRight (currentMode : DelayMode) (modulatedDelay : Int) : Int :=
  let r :=
    if currentMode = DelayMode.CleanMode ∨ currentMode = DelayMode.LoFiMode then modulatedDelay
    else if currentMode = DelayMode.SaturationMode then Int.tdiv (modulatedDelay * 101) 100
    else Int.tdiv (modulatedDelay * 110) 100
  clampFine r

/-- The right-channel fine delay of this cycle. -/
def modulatedDelayRightOf (s : State) (inp : Input) : Int :=
  stereoRight (modeOf s inp) (modulatedDelayOf s inp)

/-- Source lines 272-281: on a rising edge of the freeze gate, capture the
write position and both channels' delay lengths (in whole samples).
Returns (frozenWritePos, frozenDelayTimeL, frozenDelayTimeR). -/
def freezeCapture (freezeActive lastFreezeActive : Bool)
    (writeIndex frozenWritePos frozenDelayTimeL frozenDelayTimeR modulatedDelay modulatedDelayRight : Int) :
    Int × Int × Int :=
  if freezeActive && !lastFreezeActive then
    (writeIndex, sar modulatedDelay 7, sar modulatedDelayRight 7)
  else
    (frozenWritePos, frozenDelayTimeL, frozenDelayTimeR)

/-- The frozen-capture triple used by this cycle. -/
def captureOf (s : State) (inp : Input) : Int × Int × Int :=
  freezeCapture inp.pulse2 s.lastFreezeActive s.writeIndex s.frozenWritePos s.frozenDelayTimeL
    s.frozenDelayTimeR (modulatedDelayOf s inp) (modulatedDelayRightOf s inp)

/-- The left frozen delay length in force during this cycle's read. -/
def frozenDelayLUsed (s : State) (inp : Input) : Int := (captureOf s inp).2.1

/-- Source lines 283-306: resolve the delay lengths and the effective write
index for this cycle's reads. While frozen, both delay lengths are the
captured ones and the read position loops inside the frozen window of
length frozenDelayTimeL + 1; otherwise the live values are used.
Returns (delayInSamplesLeft, delayInSamplesRight, effectiveWriteIndex). -/
def resolveRead (freezeActive : Bool)
    (writeIndex frozenWritePos frozenDelayTimeL frozenDelayTimeR modulatedDelay modulatedDelayRight : Int) :
    Int × Int × Int :=
  if freezeActive then
    let advancedSamples0 := writeIndex - frozenWritePos
    let advancedSamples :=
      if advancedSamples0 < 0 then advancedSamples0 + MAX_DELAY_SIZE else advancedSamples0
    let e0 := frozenWritePos + Int.tmod advancedSamples (frozenDelayTimeL + 1)
    let effectiveWriteIndex := if e0 ≥ MAX_DELAY_SIZE then e0 - MAX_DELAY_SIZE else e0
    (frozenDelayTimeL, frozenDelayTimeR, effectiveWriteIndex)
  else
    (sar modulatedDelay 7, sar modulatedDelayRight 7, writeIndex)

/-- The resolved (delayL, delayR, effectiveWriteIndex) of this cycle. -/
def resolveOf (s : State) (inp : Input) : Int × Int × Int :=
  resolveRead inp.pulse2 s.writeIndex (captureOf s inp).1 (captureOf s inp).2.1
    (captureOf s inp).2.2 (modulatedDelayOf s inp) (modulatedDelayRightOf s inp)

/-- Source lines 311-319 (and 329-337): the two read indices of the
fractional reader, delaySamples + 1 and delaySamples + 2 behind the
effective write index, wrapped into the buffer. -/
def readIndices (effectiveWriteIndex delayInSamples : Int) : Int × Int :=
  let r1 := effectiveWriteIndex - delayInSamples - 1
  let r2 := effectiveWriteIndex - delayInSamples - 2
  let r1a := if r1 < 0 then r1 + MAX_DELAY_SIZE else r1
  let r2a := if r2 < 0 then r2 + MAX_DELAY_SIZE else r2
  (Int.tmod r1a MAX_DELAY_SIZE, Int.tmod r2a MAX_DELAY_SIZE)

/-- Source lines 322-324: linear interpolation with 1/128 precision. -/
def interpolate (sample1 sample2 fraction : Int) : Int :=
  sar (sample2 * fraction + sample1 * (128 - fraction) + 64) 7

/-- Source lines 308-324: the interpolated left delayed sample. -/
def delayedLeftOf (s : State) (inp : Input) : Int :=
  interpolate (s.delayBuffer (readIndices (resolveOf s inp).2.2 (resolveOf s inp).1).1)
    (s.delayBuffer (readIndices (resolveOf s inp).2.2 (resolveOf s inp).1).2)
    (modulatedDelayOf s inp % 128)

/-- Source lines 326-342: the interpolated right delayed sample. -/
def delayedRightOf (s : State) (inp : Input) : Int :=
  interpolate (s.delayBuffer (readIndices (resolveOf s inp).2.2 (resolveOf s inp).2.1).1)
    (s.delayBuffer (readIndices (resolveOf s inp).2.2 (resolveOf s inp).2.1).2)
    (modulatedDelayRightOf s inp % 128)

/-- Source lines 348-357: combined feedback control. -/
def combinedFeedbackOf (inp : Input) : Int := combineClamp inp.knobY inp.cv2

/-- Source lines 363-369: quadratic-crossfade input gain with its 5 percent
floor (205 of 4095). -/
def inputGainOf (combinedFeedback : Int) : Int :=
  let g := 4095 - sar (combinedFeedback * combinedFeedback + 2048) 12
  if g < 205 then 205 else g

/-- Source line 364: quadratic-crossfade feedback gain. -/
def feedbackGainOf (combinedFeedback : Int) : Int :=
  4095 - sar ((4095 - combinedFeedback) * (4095 - combinedFeedback) + 2048) 12

/-- Source line 372: feedback signal before mode processing (taken from the
left channel's delayed sample, line 345). -/
def feedbackSignal0Of (s : State) (inp : Input) : Int :=
  sar (delayedLeftOf s inp * feedbackGainOf (combinedFeedbackOf inp) + 2048) 12

/-- Source lines 382-393: the bloom-then-decay dynamic gain envelope of
SATURATION mode. -/
def dynamicGainOf (saturationAccum : Int) : Int :=
  if saturationAccum < 150 then 1740 + saturationAccum * 4
  else
    let decay := saturationAccum - 150
    let g := 2340 - sar (decay * 5 + 1) 1
    if g < 1126 then 1126 else g

/-- The warmSaturate result of this cycle (evaluated in SATURATION mode). -/
def satPairOf (s : State) (inp : Input) : Int × Int :=
  warmSaturate s.saturationAccum (feedbackSignal0Of s inp)

/-- The shimmer highpass result of this cycle (evaluated in SHIMMER mode). -/
def shimmerPairOf (s : State) (inp : Input) : Int × Int :=
  shimmerHighpass s.shimmerHpfState (feedbackSignal0Of s inp)

/-- saturationAccum persists unchanged outside SATURATION mode. -/
def saturationAccumAfter (s : State) (inp : Input) : Int :=
  if modeOf s inp = DelayMode.SaturationMode then (satPairOf s inp).1 else s.saturationAccum

/-- shimmerHpfState persists unchanged outside SHIMMER mode. -/
def shimmerStateAfter (s : State) (inp : Input) : Int :=
  if modeOf s inp = DelayMode.ShimmerMode then (shimmerPairOf s inp).1 else s.shimmerHpfState

/-- Source lines 374-402: mode-dependent processing of the feedback signal. -/
def feedbackSignalOf (s : State) (inp : Input) : Int :=
  if modeOf s inp = DelayMode.SaturationMode then
    sar ((satPairOf s inp).2 * dynamicGainOf (satPairOf s inp).1 + 1024) 11
  else if modeOf s inp = DelayMode.ShimmerMode then (shimmerPairOf s inp).2
  else feedbackSignal0Of s inp

/-- Source line 406: gain-scaled input plus processed feedback. -/
def mixedSignalOf (s : State) (inp : Input) : Int :=
  sar (audioInOf inp * inputGainOf (combinedFeedbackOf inp) + 2048) 12 + feedbackSignalOf s inp

/-- Source line 409: DC-blocking highpass of the mixed signal. -/
def hpOf (s : State) (inp : Input) : Int × Int :=
  highpass s.hpfState (mixedSignalOf s inp)

/-- Source lines 413-414: clamp the filtered signal to the signed sample
range before writing (the (int16_t) store cast is then the identity). -/
def filteredOf (s : State) (inp : Input) : Int :=
  let f := (hpOf s inp).2
  let f1 := if f > 2047 then 2047 else f
  if f1 < -2047 then -2047 else f1

/-- Source lines 416-420: the store happens only when freeze is inactive
(the source writes under if (!freezeActive); the branches are swapped here
with identical meaning). -/
def delayBufferAfter (s : State) (inp : Input) : Int → Int :=
  if inp.pulse2 then s.delayBuffer
  else Function.update s.delayBuffer s.writeIndex (filteredOf s inp)

/-- Source lines 448-450: LED blink rate, half the left delay, at least 100. -/
def blinkRateOf (s : State) (inp : Input) : Int :=
  let b := Int.tdiv (resolveOf s inp).1 2
  if b < 100 then 100 else b

/-- Source lines 448-455: ledCounter increments and resets at blinkRate. -/
def ledCounterAfter (s : State) (inp : Input) : Int :=
  if s.ledCounter + 1 ≥ blinkRateOf s inp then 0 else s.ledCounter + 1

/-- Source lines 452-458: LED 0 command of this cycle, if any. -/
def led0Of (s : State) (inp : Input) : Option Bool :=
  if s.ledCounter + 1 ≥ blinkRateOf s inp then some true
  else if s.ledCounter + 1 ≥ Int.tdiv (blinkRateOf s inp) 2 then some false
  else none

/-- Source lines 425-441: dry/wet mix and output clip for one channel. -/
def mixOut (audioIn delayedSample mixKnob : Int) : Int :=
  clip (sar (audioIn * (4095 - mixKnob) + delayedSample * mixKnob + 2048) 12)

/-- One full ProcessSample cycle, source lines 124-476: consumes the state
and the polled inputs, and produces the next state and this cycle's
outputs. Field order follows the source member declarations. -/
def processSample (s : State) (inp : Input) : State × Output :=
  ({ delayBuffer := delayBufferAfter s inp
   , writeIndex := Int.tmod (s.writeIndex + 1) MAX_DELAY_SIZE
   , smoothedDelay := smoothedDelayOf s inp
   , lastRawControl := (hysOf s inp).2
   , ledCounter := ledCounterAfter s inp
   , currentMode := modeOf s inp
   , lastSwitchDown := decide (inp.switchVal = Switch.Down)
   , hpfState := (hpOf s inp).1
   , shimmerHpfState := shimmerStateAfter s inp
   , saturationAccum := saturationAccumAfter s inp
   , lastTapTime := (tapAfterOf s inp).1
   , tapInterval := (tapAfterOf s inp).2.1
   , tapTimeout := (tapAfterOf s inp).2.2.1
   , tapTempoActive := tapActiveOf s inp
   , lastPulse1 := inp.pulse1
   , sampleCounter := (s.sampleCounter + 1) % U32
   , lastFreezeActive := inp.pulse2
   , frozenWritePos := (captureOf s inp).1
   , frozenDelayTimeL := (captureOf s inp).2.1
   , frozenDelayTimeR := (captureOf s inp).2.2 },
   { audioOut1 := mixOut (audioInOf inp) (delayedLeftOf s inp) inp.knobMain
   , audioOut2 := mixOut (audioInOf inp) (delayedRightOf s inp) inp.knobMain
   , led0 := led0Of s inp
   , led1 := decide (combinedFeedbackOf inp > 2048)
   , led2 := decide (modeOf s inp = DelayMode.CleanMode)
   , led3 := decide (modeOf s inp = DelayMode.SaturationMode)
   , led4 := decide (modeOf s inp = DelayMode.ShimmerMode)
   , led5 := decide (modeOf s inp = DelayMode.LoFiMode) })

/-- The power-on state, source lines 115-121 (zero-initialized buffer,
constructor initialization list). -/
def initState : State :=
  { delayBuffer := fun _ => 0
  , writeIndex := 0
  , smoothedDelay := 0
  , lastRawControl := 0
  , ledCounter := 0
  , currentMode := DelayMode.CleanMode
  , lastSwitchDown := true
  , hpfState := 0
  , shimmerHpfState := 0
  , saturationAccum := 0
  , lastTapTime := 0
  , tapInterval := 24000
  , tapTimeout := 0
  , tapTempoActive := false
  , lastPulse1 := false
  , sampleCounter := 0
  , lastFreezeActive := false
  , frozenWritePos := 0
  , frozenDelayTimeL := 0
  , frozenDelayTimeR := 0 }

/-- States reachable from power-on by running ProcessSample cycles. -/
inductive Reachable : State → Prop where
  | init : Reachable initState
  | step (s : State) (inp : Input) : Reachable s → Reachable (processSample s inp).1

/-- The state after n cycles driven by the input stream ins. -/
def run (ins : Nat → Input) : Nat → State
  | 0 => initState
  | n + 1 => (processSample (run ins n) (ins n)).1

/-- A cycle with no audio, centered controls, and no trigger edges. -/
def quietIn : Input :=
  { audioIn1 := 0, audioIn2 := 0, switchVal := Switch.Middle, pulse1 := false, pulse2 := false
  , knobX := 0, knobY := 0, knobMain := 0, cv1 := 0, cv2 := 0 }

/-- A quiet cycle carrying a tap-tempo trigger. -/
def tapIn : Input := { quietIn with pulse1 := true }

/-- A quiet cycle with the freeze gate high. -/
def freezeIn : Input := { quietIn with pulse2 := true }

/-- Symmetric round-to-nearest of t / 2^16 (ties away from zero), the
rounding the specification describes for the shimmer constant. -/
def roundHalfAwayQ16 (t : Int) : Int :=
  if 0 ≤ t then (t + 32768) / 65536 else -((-t + 32768) / 65536)

/-- Helper: Int remainder by a positive bound is the identity on [0, bound). -/
theorem tmod_small (v b : Int) (h0 : 0 ≤ v) (h1 : v < b) : Int.tmod v b = v := by
  rw [Int.tmod_eq_emod h0 (by omega)]
  exact Int.emod_eq_of_lt h0 h1

/-- Claim C1: while freeze is active, the resolved read state uses the
captured delay lengths for both channels and the effective read cursor
frozenWritePos + ((writeIndex - frozenWritePos) mod (frozenDelayTimeL + 1)),
all arithmetic modulo the capacity 96000; the result does not depend on the
live modulated delays (the knob and CV path). -/
theorem claim1_freeze_read_cursor (w fp L R md mdR : Int)
    (hw0 : 0 ≤ w) (hw1 : w < 96000) (hp0 : 0 ≤ fp) (hp1 : fp < 96000) (hL : 0 ≤ L) :
    resolveRead true w fp L R md mdR =
      (L, R, (fp + ((w - fp) % 96000) % (L + 1)) % 96000) := by
  have hL1 : (0:Int) < L + 1 := by omega
  unfold resolveRead MAX_DELAY_SIZE
  rw [if_pos rfl]
  dsimp only
  have ha : (if w - fp < 0 then w - fp + 96000 else w - fp) = (w - fp) % 96000 := by
    split <;> omega
  rw [ha]
  have h0a : 0 ≤ (w - fp) % 96000 := Int.emod_nonneg _ (by norm_num)
  have h1a : (w - fp) % 96000 < 96000 := Int.emod_lt_of_pos _ (by norm_num)
  rw [Int.tmod_eq_emod h0a (by omega)]
  have h0r : 0 ≤ ((w - fp) % 96000) % (L + 1) := Int.emod_nonneg _ (by omega)
  have h1r : ((w - fp) % 96000) % (L + 1) ≤ (w - fp) % 96000 := by
    rcases lt_or_le ((w - fp) % 96000) (L + 1) with h | h
    · rw [Int.emod_eq_of_lt h0a h]
    · exact le_trans (le_of_lt (Int.emod_lt_of_pos _ hL1)) h
  simp only [Prod.mk.injEq, true_and]
  set r := ((w - fp) % 96000) % (L + 1) with hr
  split <;> omega

/-- Witness for claim C1 at a wrapping cursor configuration. -/
theorem claim1_witness :
    resolveRead true 5 95990 200 300 7777 8888 =
      (200, 300, (95990 + ((5 - 95990) % 96000) % (200 + 1)) % 96000) :=
  claim1_freeze_read_cursor 5 95990 200 300 7777 8888 (by decide) (by decide) (by decide)
    (by decide) (by decide)

/-- Claim C2: on a cycle with freeze active, the sample store is untouched
while the write cursor still advances by exactly one modulo 96000. -/
theorem claim2_freeze_write_suppressed (s : State) (inp : Input)
    (hfz : inp.pulse2 = true) (hw : 0 ≤ s.writeIndex) :
    (processSample s inp).1.delayBuffer = s.delayBuffer ∧
    (processSample s inp).1.writeIndex = (s.writeIndex + 1) % 96000 := by
  constructor
  · show delayBufferAfter s inp = s.delayBuffer
    unfold delayBufferAfter
    rw [hfz]
    simp
  · show Int.tmod (s.writeIndex + 1) MAX_DELAY_SIZE = (s.writeIndex + 1) % 96000
    unfold MAX_DELAY_SIZE
    rw [Int.tmod_eq_emod (by omega) (by norm_num)]

/-- Witness for claim C2 from the power-on state under a high freeze gate. -/
theorem claim2_witness :
    (processSample initState freezeIn).1.delayBuffer = initState.delayBuffer ∧
    (processSample initState freezeIn).1.writeIndex = (initState.writeIndex + 1) % 96000 :=
  claim2_freeze_write_suppressed initState freezeIn rfl (by decide)

/-- Claim C3: on a rising edge of the tap trigger, an interval inside
[2400, 144000] sets tapInterval to the interval, activates the estimator
and arms the deadline now + 240000; an interval outside the window leaves
tapInterval, tapTimeout and the active flag unchanged; lastTapTime is set
to the current time in both cases (all uint32_t arithmetic modulo 2^32). -/
theorem claim3_tap_edge (now last ti tt : Nat) (act : Bool) :
    tapUpdate true false now last ti tt act =
      (now,
       if 2400 ≤ (now + U32 - last % U32) % U32 ∧ (now + U32 - last % U32) % U32 ≤ 144000 then
         (now + U32 - last % U32) % U32
       else ti,
       if 2400 ≤ (now + U32 - last % U32) % U32 ∧ (now + U32 - last % U32) % U32 ≤ 144000 then
         (now + 240000) % U32
       else tt,
       if 2400 ≤ (now + U32 - last % U32) % U32 ∧ (now + U32 - last % U32) % U32 ≤ 144000 then
         true
       else act) := by
  unfold tapUpdate
  simp only [Bool.not_false, Bool.and_true, if_true]
  split_ifs <;> rfl

/-- Claim C5: for any effective cursor in [0, 96000) and any delay length in
[MIN_DELAY, MAX_DELAY], both resolved read indices of the fractional reader
lie inside the buffer bounds [0, 96000). -/
theorem claim5_read_indices_bounds (e d : Int) (he0 : 0 ≤ e) (he1 : e < 96000)
    (hd0 : 100 ≤ d) (hd1 : d ≤ 95000) :
    0 ≤ (readIndices e d).1 ∧ (readIndices e d).1 < 96000 ∧
    0 ≤ (readIndices e d).2 ∧ (readIndices e d).2 < 96000 := by
  unfold readIndices MAX_DELAY_SIZE
  dsimp only
  rw [tmod_small _ _ (by split <;> omega) (by split <;> omega),
      tmod_small _ _ (by split <;> omega) (by split <;> omega)]
  split_ifs <;> omega

/-- Witness for claim C5 at the extreme wrap case. -/
theorem claim5_witness :
    0 ≤ (readIndices 0 95000).1 ∧ (readIndices 0 95000).1 < 96000 ∧
    0 ≤ (readIndices 0 95000).2 ∧ (readIndices 0 95000).2 < 96000 :=
  claim5_read_indices_bounds 0 95000 (by decide) (by decide) (by decide) (by decide)

/-- Claim C8: outside LOFI mode a combined control closer than 8 to the held
value leaves the held value in place and is replaced by it, a difference of
at least 8 adopts the new value; LOFI mode always adopts the new value. -/
theorem claim8_hysteresis (m : DelayMode) (c l : Int) :
    hysteresisStep m c l =
      if m = DelayMode.LoFiMode then (c, c)
      else if |c - l| < 8 then (l, l) else (c, c) := by
  unfold hysteresisStep
  rcases eq_or_ne m DelayMode.LoFiMode with h | h
  · simp [h]
  · have habs : (if c - l < 0 then -(c - l) else c - l) = |c - l| := by
      rcases lt_or_le (c - l) 0 with hcl | hcl
      · rw [if_pos hcl, abs_of_neg hcl]
      · rw [if_neg (not_lt.mpr hcl), abs_of_nonneg hcl]
    simp only [ne_eq, h, not_false_iff, if_true, if_neg h]
    rw [habs]
    rcases lt_or_le (|c - l|) 8 with hab | hab
    · rw [if_neg (not_le.mpr hab), if_pos hab]
      simp
    · rw [if_pos hab, if_neg (not_lt.mpr hab)]
      simp

/-- Claim C4: the wrap-safe timeout comparison, with the deadline armed
240000 samples after an accepted tap at counter value t0, deactivates the
estimator exactly when at least 240000 samples have elapsed, for every
starting counter value (hence across uint32_t wraparound): no early
timeout, and no staying active once the deadline has passed. -/
theorem claim4_tap_timeout_wrap (t0 k : Nat) (ht : t0 < 4294967296) (hk : k < 2147723648) :
    (tapTimeoutCheck true ((t0 + k) % U32) ((t0 + 240000) % U32) = false) ↔ 240000 ≤ k := by
  unfold tapTimeoutCheck toI32 U32
  split_ifs with h1 h2 <;> simp_all <;> omega

/-- Witness for claim C4 at a counter close to the uint32_t wrap. -/
theorem claim4_witness :
    tapTimeoutCheck true ((4294800000 + 240000) % U32) ((4294800000 + 240000) % U32) = false :=
  (claim4_tap_timeout_wrap 4294800000 240000 (by decide) (by decide)).mpr (by decide)

/-- Claim C7 counterexample: at combined feedback 0 the code computes
feedbackGain = 1 (division by 4096 with rounding), while the claimed
formula 4095 - (4095 - f)^2 / 4095 gives 0. -/
theorem claim7_counterexample :
    feedbackGainOf 0 = 1 ∧ (4095 - (4095 - 0) * (4095 - 0) / 4095 : Int) = 0 ∧
    feedbackGainOf 0 ≠ 4095 - (4095 - 0) * (4095 - 0) / 4095 :=
  ⟨by decide, by decide, by decide⟩

/-- Claim C7 amended: the gains divide by 4096 (a rounding right shift by
12, offset 2048), not by 4095: inputGain = max(205, 4095 - (f^2+2048)/4096)
and feedbackGain = 4095 - ((4095-f)^2+2048)/4096, so the 5 percent floor
205 always holds for the input gain, in particular at f = 4095. -/
theorem claim7_amended (f : Int) (h0 : 0 ≤ f) (h1 : f ≤ 4095) :
    inputGainOf f = max 205 (4095 - (f * f + 2048) / 4096) ∧
    feedbackGainOf f = 4095 - ((4095 - f) * (4095 - f) + 2048) / 4096 ∧
    205 ≤ inputGainOf f := by
  have hpow : ((2:Int) ^ (12:Nat)) = 4096 := by norm_num
  refine ⟨?_, ?_, ?_⟩
  · unfold inputGainOf sar
    rw [hpow]
    rcases lt_or_le (4095 - (f * f + 2048) / 4096) 205 with h | h
    · rw [if_pos h, max_eq_left (le_of_lt h)]
    · rw [if_neg (not_lt.mpr h), max_eq_right h]
  · unfold feedbackGainOf sar
    rw [hpow]
  · unfold inputGainOf sar
    rw [hpow]
    rcases lt_or_le (4095 - (f * f + 2048) / 4096) 205 with h | h
    · rw [if_pos h]
    · rw [if_neg (not_lt.mpr h)]
      exact h

/-- Witness for claim C7 amended at maximum feedback. -/
theorem claim7_witness :
    inputGainOf 4095 = max 205 (4095 - (4095 * 4095 + 2048) / 4096) ∧
    feedbackGainOf 4095 = 4095 - ((4095 - 4095) * (4095 - 4095) + 2048) / 4096 ∧
    205 ≤ inputGainOf 4095 :=
  claim7_amended 4095 (by decide) (by decide)

/-- Helper: rational bounds on 2^(7/12), obtained from its 12th power. -/
theorem rpow_seven_twelfths_bounds :
    (1.496 : ℝ) < (2:ℝ) ^ ((7:ℝ)/12) ∧ (2:ℝ) ^ ((7:ℝ)/12) < 1.4992 := by
  have hx0 : (0:ℝ) < (2:ℝ) ^ ((7:ℝ)/12) := Real.rpow_pos_of_pos (by norm_num) _
  have hx12 : ((2:ℝ) ^ ((7:ℝ)/12)) ^ (12:ℕ) = 128 := by
    rw [← Real.rpow_natCast ((2:ℝ) ^ ((7:ℝ)/12)) 12, ← Real.rpow_mul (by norm_num)]
    norm_num
  constructor
  · by_contra hle
    push_neg at hle
    have h2 : ((2:ℝ) ^ ((7:ℝ)/12)) ^ (12:ℕ) ≤ (1.496:ℝ) ^ (12:ℕ) :=
      pow_le_pow_left (le_of_lt hx0) hle 12
    rw [hx12] at h2
    norm_num at h2
  · by_contra hle
    push_neg at hle
    have h2 : (1.4992:ℝ) ^ (12:ℕ) ≤ ((2:ℝ) ^ ((7:ℝ)/12)) ^ (12:ℕ) :=
      pow_le_pow_left (by norm_num) hle 12
    rw [hx12] at h2
    norm_num at h2

/-- Claim C6 counterexample: on the smoothed delay 12800 (the minimum of
the fine domain) the code's shimmer modulation is -4255, which differs from
the product with the claimed constant 1 - 2^(7/12) by far more than any
rounding could account for. -/
theorem claim6_counterexample :
    shimmerPitchMod 12800 = -4255 ∧
    1 < |(shimmerPitchMod 12800 : ℝ) - 12800 * (1 - (2:ℝ) ^ ((7:ℝ)/12))| := by
  have h1 : shimmerPitchMod 12800 = -4255 := by decide
  refine ⟨h1, ?_⟩
  have hb := rpow_seven_twelfths_bounds.1
  rw [h1]
  have hpos : (0:ℝ) < ((-4255 : Int) : ℝ) - 12800 * (1 - (2:ℝ) ^ ((7:ℝ)/12)) := by
    push_cast
    nlinarith
  rw [abs_of_pos hpos]
  push_cast
  nlinarith

/-- Claim C6 amended: the shimmer modulation multiplies the smoothed delay
by the Q16 constant -21782 (which approximates 2^(-7/12) - 1, a delay
shortening by a perfect fifth, within 1/1000), and the signed-offset
arithmetic shift lands within one unit at or below the symmetric
round-to-nearest of that product. -/
theorem claim6_amended (d : Int) (hd : 0 ≤ d) :
    (roundHalfAwayQ16 (d * (-21782)) - 1 ≤ shimmerPitchMod d ∧
     shimmerPitchMod d ≤ roundHalfAwayQ16 (d * (-21782))) ∧
    |(-21782 : ℝ) / 65536 - ((2:ℝ) ^ (-((7:ℝ)/12)) - 1)| < 1 / 1000 := by
  constructor
  · have hpow : ((2:Int) ^ (16:Nat)) = 65536 := by norm_num
    simp only [shimmerPitchMod, roundHalfAwayQ16, sar, hpow]
    split_ifs <;> omega
  · have hb := rpow_seven_twelfths_bounds
    have hx0 : (0:ℝ) < (2:ℝ) ^ ((7:ℝ)/12) := Real.rpow_pos_of_pos (by norm_num) _
    rw [Real.rpow_neg (by norm_num : (0:ℝ) ≤ 2)]
    have hinv : (2:ℝ) ^ ((7:ℝ)/12) * ((2:ℝ) ^ ((7:ℝ)/12))⁻¹ = 1 :=
      mul_inv_cancel₀ (ne_of_gt hx0)
    have hy0 : (0:ℝ) < ((2:ℝ) ^ ((7:ℝ)/12))⁻¹ := inv_pos.mpr hx0
    rw [abs_lt]
    constructor <;> nlinarith [hb.1, hb.2, hinv, hy0]

/-- Witness for claim C6 amended at the unit smoothed delay 65536. -/
theorem claim6_witness :
    (roundHalfAwayQ16 (65536 * (-21782)) - 1 ≤ shimmerPitchMod 65536 ∧
     shimmerPitchMod 65536 ≤ roundHalfAwayQ16 (65536 * (-21782))) ∧
    |(-21782 : ℝ) / 65536 - ((2:ℝ) ^ (-((7:ℝ)/12)) - 1)| < 1 / 1000 :=
  claim6_amended 65536 (by decide)

/-- Helper: the next state's frozenDelayTimeL is the captured value. -/
theorem ps_frozenDelayTimeL (s : State) (inp : Input) :
    (processSample s inp).1.frozenDelayTimeL = frozenDelayLUsed s inp := rfl

/-- Helper: the next state's lastFreezeActive is this cycle's freeze gate. -/
theorem ps_lastFreezeActive (s : State) (inp : Input) :
    (processSample s inp).1.lastFreezeActive = inp.pulse2 := rfl

/-- Helper: the next state's lastTapTime comes from the edge handling. -/
theorem ps_lastTapTime (s : State) (inp : Input) :
    (processSample s inp).1.lastTapTime = (tapAfterOf s inp).1 := rfl

/-- Helper: the next state's tapInterval comes from the edge handling. -/
theorem ps_tapInterval (s : State) (inp : Input) :
    (processSample s inp).1.tapInterval = (tapAfterOf s inp).2.1 := rfl

/-- Helper: the next state's tapTempoActive is the post-timeout flag. -/
theorem ps_tapTempoActive (s : State) (inp : Input) :
    (processSample s inp).1.tapTempoActive = tapActiveOf s inp := rfl

/-- Helper: the sample counter advances by one modulo 2^32. -/
theorem ps_sampleCounter (s : State) (inp : Input) :
    (processSample s inp).1.sampleCounter = (s.sampleCounter + 1) % U32 := rfl

/-- Helper: the next state's lastPulse1 is this cycle's pulse 1. -/
theorem ps_lastPulse1 (s : State) (inp : Input) :
    (processSample s inp).1.lastPulse1 = inp.pulse1 := rfl

/-- Helper: any clamped fine delay lands in [100, 95000] whole samples. -/
theorem clampFine_sar_bounds (x : Int) :
    100 ≤ sar (clampFine x) 7 ∧ sar (clampFine x) 7 ≤ 95000 := by
  have hpow : ((2:Int) ^ (7:Nat)) = 128 := by norm_num
  simp only [clampFine, sar, hpow, MIN_DELAY, MAX_DELAY]
  split_ifs <;> omega

/-- Helper invariant: after any cycle that left the freeze gate high, the
stored left frozen delay length is a properly captured, clamped value. -/
theorem freeze_invariant (s : State) (h : Reachable s) :
    s.lastFreezeActive = true → 100 ≤ s.frozenDelayTimeL ∧ s.frozenDelayTimeL ≤ 95000 := by
  induction h with
  | init =>
    intro hfa
    exact absurd hfa (by decide)
  | step s0 inp _ ih =>
    intro hfa
    have hfz : inp.pulse2 = true := hfa
    rw [ps_frozenDelayTimeL]
    unfold frozenDelayLUsed captureOf freezeCapture
    rw [hfz]
    rcases hlf : s0.lastFreezeActive with _ | _
    · simp only [Bool.not_false, Bool.and_self, if_true]
      rw [show modulatedDelayOf s0 inp =
            clampFine (smoothedDelayOf s0 inp + pitchModulationOf s0 inp) from rfl]
      exact clampFine_sar_bounds _
    · simp only [Bool.not_true, Bool.and_false, Bool.false_eq_true, if_false]
      exact ih hlf

/-- Claim C9: in any reachable state, on a cycle with the freeze gate high
the left frozen delay length in force (captured on the freeze rising edge,
clamped to [MIN_DELAY, MAX_DELAY] before capture) lies in [100, 95000], so
the frozen-loop modulus frozenDelayTimeL + 1 is at least 101 and positive. -/
theorem claim9_frozen_modulus_safe (s : State) (inp : Input) (hs : Reachable s)
    (hfz : inp.pulse2 = true) :
    100 ≤ frozenDelayLUsed s inp ∧ frozenDelayLUsed s inp ≤ 95000 ∧
    0 < frozenDelayLUsed s inp + 1 := by
  have key : 100 ≤ frozenDelayLUsed s inp ∧ frozenDelayLUsed s inp ≤ 95000 := by
    unfold frozenDelayLUsed captureOf freezeCapture
    rw [hfz]
    rcases hlf : s.lastFreezeActive with _ | _
    · simp only [Bool.not_false, Bool.and_self, if_true]
      rw [show modulatedDelayOf s inp =
            clampFine (smoothedDelayOf s inp + pitchModulationOf s inp) from rfl]
      exact clampFine_sar_bounds _
    · simp only [Bool.not_true, Bool.and_false, Bool.false_eq_true, if_false]
      exact freeze_invariant s hs hlf
  exact ⟨key.1, key.2, by omega⟩

/-- Witness for claim C9: freezing right at power-on. -/
theorem claim9_witness :
    100 ≤ frozenDelayLUsed initState freezeIn ∧ frozenDelayLUsed initState freezeIn ≤ 95000 ∧
    0 < frozenDelayLUsed initState freezeIn + 1 :=
  claim9_frozen_modulus_safe initState freezeIn Reachable.init rfl

/-- Helper: over cycles without a tap trigger, lastTapTime stays 0, the
counter counts cycles, and tap tempo stays idle. -/
theorem quiet_run_state (ins : Nat → Input) (n : Nat)
    (hq : ∀ k, k < n → (ins k).pulse1 = false) :
    (run ins n).lastTapTime = 0 ∧ (run ins n).sampleCounter = n % U32 ∧
    (run ins n).lastPulse1 = false ∧ (run ins n).tapTempoActive = false := by
  induction n with
  | zero => exact ⟨rfl, rfl, rfl, rfl⟩
  | succ m ih =>
    obtain ⟨h1, h2, h3, h4⟩ := ih (fun k hk => hq k (Nat.lt_succ_of_lt hk))
    have hpm : (ins m).pulse1 = false := hq m (Nat.lt_succ_self m)
    have hrun : run ins (m + 1) = (processSample (run ins m) (ins m)).1 := rfl
    have htap : tapAfterOf (run ins m) (ins m) =
        ((run ins m).lastTapTime, (run ins m).tapInterval, (run ins m).tapTimeout,
         (run ins m).tapTempoActive) := by
      unfold tapAfterOf tapUpdate
      rw [hpm]
      simp
    refine ⟨?_, ?_, ?_, ?_⟩
    · rw [hrun, ps_lastTapTime, htap]
      exact h1
    · rw [hrun, ps_sampleCounter, h2]
      unfold U32
      omega
    · rw [hrun, ps_lastPulse1]
      exact hpm
    · rw [hrun, ps_tapTempoActive]
      unfold tapActiveOf
      rw [htap]
      dsimp only
      rw [h4]
      unfold tapTimeoutCheck
      simp

/-- Claim C10: with lastTapTime initialized to 0, a single rising edge of
the tap trigger at counter value n with 2400 ≤ n ≤ 144000 (after n tapless
cycles from power-on) immediately activates tap tempo with tapInterval = n,
the interval being measured from time 0 rather than between two taps. -/
theorem claim10_single_tap_activates (ins : Nat → Input) (n : Nat) (inp : Input)
    (hq : ∀ k, k < n → (ins k).pulse1 = false) (hp : inp.pulse1 = true)
    (h1 : 2400 ≤ n) (h2 : n ≤ 144000) :
    (processSample (run ins n) inp).1.tapTempoActive = true ∧
    (processSample (run ins n) inp).1.tapInterval = n := by
  obtain ⟨hlt, hsc, hlp, hta⟩ := quiet_run_state ins n hq
  have hscn : (run ins n).sampleCounter = n := by
    rw [hsc]
    unfold U32
    omega
  have htap : tapAfterOf (run ins n) inp = (n, n, (n + 240000) % U32, true) := by
    unfold tapAfterOf tapUpdate
    rw [hp, hlp, hscn, hlt]
    have he : (n + U32 - 0 % U32) % U32 = n := by
      unfold U32
      omega
    simp only [Bool.not_false, Bool.and_true, if_true]
    rw [he]
    rw [if_pos ⟨by omega, by omega⟩]
  constructor
  · rw [ps_tapTempoActive]
    unfold tapActiveOf
    rw [htap]
    dsimp only
    rw [hscn]
    unfold tapTimeoutCheck
    have hneg : ¬(true = true ∧ 0 ≤ toI32 ((n + U32 - ((n + 240000) % U32) % U32) % U32)) := by
      rintro ⟨-, hge⟩
      have hm : (n + U32 - ((n + 240000) % U32) % U32) % U32 = 4294727296 := by
        unfold U32
        omega
      rw [hm] at hge
      unfold toI32 U32 at hge
      norm_num at hge
    rw [if_neg hneg]
  · rw [ps_tapInterval, htap]

/-- Witness for claim C10: the first tap arriving 2400 cycles after
power-on. -/
theorem claim10_witness :
    (processSample (run (fun _ => quietIn) 2400) tapIn).1.tapTempoActive = true ∧
    (processSample (run (fun _ => quietIn) 2400) tapIn).1.tapInterval = 2400 :=
  claim10_single_tap_activates (fun _ => quietIn) 2400 tapIn (fun _ _ => rfl) rfl
    (by decide) (by decide)

end WorkshopDelay
